import Mathlib

/- Verification of the session-routing and state-synchronization core of the
   Hello3DLLM repository.

   The embedding covers:
   - the session-routed WebSocket server (the variant with per-session
     registration): connection registry, session router, inbound-message
     handler and close handler;
   - the legacy broadcast server variant;
   - the state-query orchestrator (getState, pending-query table, state
     cache), which is described by the specification and by code snippets in
     the repository's implementation notes but whose server file is not among
     the provided sources; it is modelled from the spec (see the SpecModel
     namespace).

   JavaScript Map objects are embedded as association lists with Map
   semantics (set overwrites the binding for a key, get returns the unique
   binding, delete removes it).  WebSocket sends are embedded as an explicit
   list of (connection id, serialized message) effects.  Numeric command
   payloads are embedded as integers; no verified property depends on
   floating-point values. -/

/-- A JSON scalar value as used in command payloads. -/
inductive JVal where
  | jstr (s : String)
  | jnum (n : Int)
deriving DecidableEq

/-- Serialization of a JSON scalar, as JSON.stringify renders it. -/
def JVal.stringify : JVal → String
  | JVal.jstr s => "\"" ++ s ++ "\""
  | JVal.jnum n => toString n

/-- A command object: a flat JSON object of tagged fields, e.g.
the changeColor command with a type tag and a color field. -/
structure Command where
  fields : List (String × JVal)
deriving DecidableEq

/-- JSON.stringify of a flat command object. -/
def Command.stringify (c : Command) : String :=
  "\x7b" ++ String.intercalate "," (c.fields.map (fun kv => "\"" ++ kv.1 ++ "\":" ++ JVal.stringify kv.2)) ++ "\x7d"

/-- Map.get: the value bound to a key, if any. -/
def regGet {β : Type} (r : List (String × β)) (k : String) : Option β :=
  (r.find? (fun kv => kv.1 == k)).map (fun kv => kv.2)

/-- Map.set: bind a key to a value, overwriting any previous binding. -/
def regSet {β : Type} (r : List (String × β)) (k : String) (v : β) : List (String × β) :=
  (k, v) :: r.filter (fun kv => kv.1 != k)

/-- Map.delete: remove the binding for a key (a no-op when absent). -/
def regDelete {β : Type} (r : List (String × β)) (k : String) : List (String × β) :=
  r.filter (fun kv => kv.1 != k)

theorem regGet_set_self {β : Type} (r : List (String × β)) (k : String) (v : β) :
    regGet (regSet r k v) k = some v := by
  simp [regGet, regSet]

theorem regGet_delete_self {β : Type} (r : List (String × β)) (k : String) :
    regGet (regDelete r k) k = none := by
  simp [regGet, regDelete, List.find?_filter]

/-- JavaScript truthiness of a nullable string: null and the empty string
are falsy, every other string is truthy. -/
def isTruthy : Option String → Bool
  | none => false
  | some s => s != ""

/-- A browser WebSocket connection handle: an identity and the readyState
field (1 is WebSocket.OPEN). -/
structure Conn where
  id : Nat
  readyState : Nat
deriving DecidableEq

namespace Server

/-- The mutable server state of the session-routed server: the wsClients
map from session id to the registered WebSocket connection. -/
structure ServerState where
  wsClients : List (String × Conn)
deriving DecidableEq

/-- The sendToSession function of the session-routed server: looks up the
wsClients map; if a connection is present and open, serializes the command,
sends it once and returns true; otherwise logs a warning and returns false.
The returned list records the send effects performed. -/
def sendToSession (st : ServerState) (sessionId : String) (command : Command) :
    Bool × List (Nat × String) :=
  match regGet st.wsClients sessionId with
  | some ws =>
    if ws.readyState == 1 then (true, [(ws.id, Command.stringify command)])
    else (false, [])
  | none => (false, [])

/-- The broadcastToClients function of the session-routed server: sends the
serialized command to every client in the wsClients map whose socket is
open. -/
def broadcastToClients (st : ServerState) (command : Command) : List (Nat × String) :=
  (st.wsClients.filter (fun kv => kv.2.readyState == 1)).map
    (fun kv => (kv.2.id, Command.stringify command))

/-- What the routeToCurrentSession path did with a command. -/
inductive RouteOutcome where
  | routedToSession (sid : String) (delivered : Bool)
  | broadcastAll
  | droppedNoClients
  | droppedNoSession
deriving DecidableEq

/-- The routeToCurrentSession helper: with an ambient session id it routes
via sendToSession; without one, in STDIO mode it broadcasts to all clients
when any are connected and otherwise logs that the command was not routed;
in HTTP mode it logs a warning and does not route the command. -/
def routeToCurrentSession (st : ServerState) (isStdioMode : Bool)
    (sessionCtx : Option String) (command : Command) :
    List (Nat × String) × RouteOutcome :=
  if isTruthy sessionCtx then
    let sid := sessionCtx.getD ""
    let sent := sendToSession st sid command
    (sent.2, RouteOutcome.routedToSession sid sent.1)
  else if isStdioMode then
    if 0 < st.wsClients.length then (broadcastToClients st command, RouteOutcome.broadcastAll)
    else ([], RouteOutcome.droppedNoClients)
  else ([], RouteOutcome.droppedNoSession)

/-- The fields the inbound-message handler reads from a parsed message. -/
structure MsgData where
  type : Option String
  sessionId : Option String
deriving DecidableEq

/-- An inbound WebSocket frame, as seen after the JSON.parse attempt:
either it failed to parse, or it parsed to an object with the read fields. -/
inductive Inbound where
  | unparseable
  | parsed (data : MsgData)
deriving DecidableEq

/-- The observable effect of one run of the inbound-message handler. -/
inductive HandlerEffect where
  | registered (sid : String)
  | loggedCommand
  | errorReply
  | parseErrorLogged
deriving DecidableEq

/-- The result of one run of the inbound-message handler: the new server
state, the new value of the per-connection sessionId closure variable, the
send effects, and what happened. -/
structure HandleResult where
  state : ServerState
  connSession : Option String
  sends : List (Nat × String)
  effect : HandlerEffect
deriving DecidableEq

/-- The sessionRegistered confirmation message sent on registration. -/
def sessionRegisteredMsg (sid : String) : String :=
  Command.stringify ⟨[( "type", JVal.jstr "sessionRegistered"), ( "sessionId", JVal.jstr sid)]⟩

/-- The error reply sent to a sender that has not registered a session. -/
def notRegisteredMsg : String :=
  Command.stringify ⟨[( "type", JVal.jstr "error"),
    ( "message", JVal.jstr "Session not registered. Please send registerSession message first.")]⟩

/-- The inbound-message handler of the session-routed server.  The whole
body runs inside a try/catch, so a JSON.parse failure is caught and logged
(the unparseable case).  A registerSession message with a truthy sessionId
stores the connection in the wsClients map, updates the per-connection
sessionId variable and sends a sessionRegistered confirmation; any other
message is logged when the sender is registered, and answered with an error
reply when it is not.  The state and the connection are never touched in the
non-registration cases. -/
def handleMessage (st : ServerState) (conn : Conn) (connSession : Option String)
    (msg : Inbound) : HandleResult :=
  match msg with
  | Inbound.unparseable => ⟨st, connSession, [], HandlerEffect.parseErrorLogged⟩
  | Inbound.parsed d =>
    if d.type == some "registerSession" && isTruthy d.sessionId then
      let sid := d.sessionId.getD ""
      ⟨⟨regSet st.wsClients sid conn⟩, some sid,
        [(conn.id, sessionRegisteredMsg sid)], HandlerEffect.registered sid⟩
    else if isTruthy connSession then
      ⟨st, connSession, [], HandlerEffect.loggedCommand⟩
    else
      ⟨st, connSession, [(conn.id, notRegisteredMsg)], HandlerEffect.errorReply⟩

/-- The close handler of the session-routed server: when the closing
connection had registered a session id, its entry is deleted from the
wsClients map unconditionally; an unregistered close only logs. -/
def onClose (st : ServerState) (connSession : Option String) : ServerState :=
  if isTruthy connSession then ⟨regDelete st.wsClients (connSession.getD "")⟩
  else st

end Server

namespace Legacy

/-- The broadcastToClients function of the legacy broadcast server: sends
the serialized command to every connected client whose socket is open. -/
def broadcastToClients (clients : List Conn) (command : Command) : List (Nat × String) :=
  (clients.filter (fun c => c.readyState == 1)).map
    (fun c => (c.id, Command.stringify command))

/-- An inbound frame of the legacy server after the JSON.parse attempt. -/
inductive Inbound where
  | unparseable
  | parsed (command : Command)
deriving DecidableEq

/-- The inbound-message handler of the legacy broadcast server: a parse
failure is caught and logged; a successfully parsed command is re-broadcast
to all connected clients, the sender included.  The Bool records whether the
message parsed. -/
def handleClientMessage (clients : List Conn) (msg : Inbound) :
    List (Nat × String) × Bool :=
  match msg with
  | Inbound.unparseable => ([], false)
  | Inbound.parsed command => (broadcastToClients clients command, true)

end Legacy

namespace SpecModel

/-- Modelled from the spec: a CacheEntry of the sessionStateCache, the last
known scene-state payload for a session together with its capture timestamp.
The state-query server file is not among the provided sources; this follows
the spec data model and the implementation notes.  The payload type is kept
opaque (a type parameter) because the cache stores and returns it without
transformation. -/
structure CacheEntry (α : Type) where
  state : α
  timestamp : Nat
deriving DecidableEq

/-- Modelled from the spec: one entry of the pendingStateQueries table,
an in-flight state request with its unique request id and the session that
issued it.  The completion handle and timer are represented by the
rejection/removal effects of the transitions below. -/
structure PendingQuery where
  requestId : String
  sessionId : String
deriving DecidableEq

/-- Modelled from the spec: the failure taxonomy of a live state query. -/
inductive QueryFailure where
  | timeout
  | noConnection
  | disconnected
  | browserError (msg : String)
deriving DecidableEq

/-- Modelled from the spec: how one live round trip resolves — a
stateResponse in time, a stateError from the browser, the timeout firing
first, or the owning connection closing mid-flight. -/
inductive LiveOutcome (α : Type) where
  | response (state : α)
  | stateError (msg : String)
  | timeout
  | disconnect
deriving DecidableEq

/-- Modelled from the spec: the shared state of the state-query
orchestrator, the per-session state cache and the pending-query table. -/
structure OrchState (α : Type) where
  sessionStateCache : List (String × CacheEntry α)
  pendingStateQueries : List PendingQuery
deriving DecidableEq

/-- Modelled from the spec: the stateUpdate push handler — an unsolicited
stateUpdate from the browser overwrites the session's cache entry with the
reported payload and timestamp. -/
def recordStateUpdate {α : Type} (st : OrchState α) (S : String) (state : α) (ts : Nat) :
    OrchState α :=
  { st with sessionStateCache := regSet st.sessionStateCache S ⟨state, ts⟩ }

/-- Modelled from the spec: queryStateFromBrowser, one live round trip for a
session.  With no open connection it fails with noConnection; otherwise the
round trip resolves as the LiveOutcome argument says.  A successful
stateResponse overwrites the session's cache entry (refresh-then-cache); any
failure leaves the state untouched and is reported as an error. -/
def queryStateFromBrowser {α : Type} (st : OrchState α) (S : String) (hasConn : Bool)
    (live : LiveOutcome α) (now : Nat) : Except QueryFailure α × OrchState α :=
  if hasConn then
    match live with
    | LiveOutcome.response v =>
        (Except.ok v, { st with sessionStateCache := regSet st.sessionStateCache S ⟨v, now⟩ })
    | LiveOutcome.stateError m => (Except.error (QueryFailure.browserError m), st)
    | LiveOutcome.timeout => (Except.error QueryFailure.timeout, st)
    | LiveOutcome.disconnect => (Except.error QueryFailure.disconnected, st)
  else (Except.error QueryFailure.noConnection, st)

/-- Modelled from the spec: the getState helper.  With forceRefresh it
always performs the live query and on any failure falls back to the
session's cache entry, re-raising the failure only when no entry exists.
Without forceRefresh it returns the cache entry when one exists (no network
round trip) and otherwise performs the live query.  The Bool of the result
records whether a live round trip was attempted. -/
def getState {α : Type} (st : OrchState α) (S : String) (forceRefresh : Bool)
    (hasConn : Bool) (live : LiveOutcome α) (now : Nat) :
    (Except QueryFailure α × OrchState α) × Bool :=
  if forceRefresh then
    match queryStateFromBrowser st S hasConn live now with
    | (Except.ok v, st2) => ((Except.ok v, st2), true)
    | (Except.error e, st2) =>
        match regGet st2.sessionStateCache S with
        | some entry => ((Except.ok entry.state, st2), true)
        | none => ((Except.error e, st2), true)
  else
    match regGet st.sessionStateCache S with
    | some entry => ((Except.ok entry.state, st), false)
    | none => (queryStateFromBrowser st S hasConn live now, true)

/-- Modelled from the spec: the close handler of the state-query server.
When the closing connection had registered a session, the session's cache
entry is deleted and every entry of the pending-query table is removed, its
timer cleared, and rejected with a disconnected error in that same step (the
second component lists the rejections performed).  An unregistered close
cleans nothing. -/
def onDisconnect {α : Type} (st : OrchState α) (connSession : Option String) :
    OrchState α × List (PendingQuery × QueryFailure) :=
  if isTruthy connSession then
    (⟨regDelete st.sessionStateCache (connSession.getD ""), []⟩,
      st.pendingStateQueries.map (fun p => (p, QueryFailure.disconnected)))
  else (st, [])

end SpecModel

/-- A concrete open connection used by the witnesses. -/
def wsOpen : Conn := ⟨5, 1⟩

/-- A concrete server state with one registered open connection. -/
def st1 : Server.ServerState := ⟨[( "s1", wsOpen)]⟩

/-- A concrete changeColor command used by the witnesses. -/
def cmd0 : Command := ⟨[( "type", JVal.jstr "changeColor"), ( "color", JVal.jstr "#ff0000")]⟩

/-- The registry after two consecutive registerSession messages for the same
session id, arriving on two different connections (each with a fresh
per-connection sessionId variable). -/
def reRegistered (st : Server.ServerState) (S : String) (c1 c2 : Conn) : Server.ServerState :=
  (Server.handleMessage
    (Server.handleMessage st c1 none (Server.Inbound.parsed ⟨some "registerSession", some S⟩)).state
    c2 none (Server.Inbound.parsed ⟨some "registerSession", some S⟩)).state

/-- Claim C5: for every session with no registered connection, or whose
registered connection is not open, sendToSession returns false with no send
effects (and, being a total function, never throws); for every session whose
registered connection is open, sendToSession serializes the command and
sends it exactly once on that connection, returning true. -/
theorem sendToSession_spec (st : Server.ServerState) (S : String) (cmd : Command) :
    (regGet st.wsClients S = none → Server.sendToSession st S cmd = (false, [])) ∧
    (∀ ws : Conn, regGet st.wsClients S = some ws → ws.readyState ≠ 1 →
      Server.sendToSession st S cmd = (false, [])) ∧
    (∀ ws : Conn, regGet st.wsClients S = some ws → ws.readyState = 1 →
      Server.sendToSession st S cmd = (true, [(ws.id, Command.stringify cmd)])) := by
  refine ⟨fun h => ?_, fun ws h hne => ?_, fun ws h hop => ?_⟩ <;>
    simp [Server.sendToSession, h, *]

/-- Witness for claim C5 at a concrete registered open connection. -/
theorem sendToSession_spec_witness :
    Server.sendToSession st1 "s1" cmd0 = (true, [(5, Command.stringify cmd0)]) :=
  (sendToSession_spec st1 "s1" cmd0).2.2 wsOpen rfl rfl

/-- Claim C6: after two registerSession messages for the same session id on
two connections, lookup returns the second connection — re-registration
silently supersedes the prior mapping (last writer wins); the handler closes
neither connection. -/
theorem registerSession_last_write_wins (st : Server.ServerState) (S : String)
    (c1 c2 : Conn) (hS : S ≠ "") :
    regGet (reRegistered st S c1 c2).wsClients S = some c2 := by
  simp [reRegistered, Server.handleMessage, isTruthy, hS, regGet_set_self]

/-- Witness for claim C6 at concrete connections. -/
theorem registerSession_last_write_wins_witness :
    regGet (reRegistered ⟨[]⟩ "s1" ⟨1, 1⟩ ⟨2, 1⟩).wsClients "s1" = some ⟨2, 1⟩ :=
  registerSession_last_write_wins ⟨[]⟩ "s1" ⟨1, 1⟩ ⟨2, 1⟩ (by decide)

/-- Claim C7: after register(S, c1) then register(S, c2), the close handler
of c1 (whose per-connection sessionId variable still holds S) deletes the
registry entry for S unconditionally, so a later lookup or sendToSession for
S finds no connection even though the superseding connection c2 never
closed. -/
theorem close_handler_deletes_superseded_registration (st : Server.ServerState)
    (S : String) (c1 c2 : Conn) (cmd : Command) (hS : S ≠ "") :
    regGet (reRegistered st S c1 c2).wsClients S = some c2 ∧
    regGet (Server.onClose (reRegistered st S c1 c2)
      (Server.handleMessage st c1 none
        (Server.Inbound.parsed ⟨some "registerSession", some S⟩)).connSession).wsClients S = none ∧
    Server.sendToSession (Server.onClose (reRegistered st S c1 c2)
      (Server.handleMessage st c1 none
        (Server.Inbound.parsed ⟨some "registerSession", some S⟩)).connSession) S cmd = (false, []) := by
  have hreg : regGet (reRegistered st S c1 c2).wsClients S = some c2 := by
    simp [reRegistered, Server.handleMessage, isTruthy, hS, regGet_set_self]
  have hsess : (Server.handleMessage st c1 none
      (Server.Inbound.parsed ⟨some "registerSession", some S⟩)).connSession = some S := by
    simp [Server.handleMessage, isTruthy, hS]
  have hdel : regGet (Server.onClose (reRegistered st S c1 c2)
      (Server.handleMessage st c1 none
        (Server.Inbound.parsed ⟨some "registerSession", some S⟩)).connSession).wsClients S = none := by
    rw [hsess]
    simp [Server.onClose, isTruthy, hS, regGet_delete_self]
  exact ⟨hreg, hdel, by simp [Server.sendToSession, hdel]⟩

/-- Witness for claim C7 at concrete connections. -/
theorem close_handler_deletes_superseded_registration_witness :
    regGet (reRegistered ⟨[]⟩ "s1" ⟨1, 1⟩ ⟨2, 1⟩).wsClients "s1" = some ⟨2, 1⟩ ∧
    regGet (Server.onClose (reRegistered ⟨[]⟩ "s1" ⟨1, 1⟩ ⟨2, 1⟩)
      (Server.handleMessage ⟨[]⟩ ⟨1, 1⟩ none
        (Server.Inbound.parsed ⟨some "registerSession", some "s1"⟩)).connSession).wsClients "s1" = none ∧
    Server.sendToSession (Server.onClose (reRegistered ⟨[]⟩ "s1" ⟨1, 1⟩ ⟨2, 1⟩)
      (Server.handleMessage ⟨[]⟩ ⟨1, 1⟩ none
        (Server.Inbound.parsed ⟨some "registerSession", some "s1"⟩)).connSession) "s1" cmd0 = (false, []) :=
  close_handler_deletes_superseded_registration ⟨[]⟩ "s1" ⟨1, 1⟩ ⟨2, 1⟩ cmd0 (by decide)

/-- Counterexample for claim C4: in HTTP mode (isStdioMode false) with no
active session context and one registered open connection, the
command-emitting path drops the command with a logged warning — it emits no
send, although broadcasting the same command from the same state would have
delivered it, and no default session id is consulted. -/
theorem routeToCurrentSession_noSession_counterexample :
    Server.routeToCurrentSession st1 false none cmd0 =
      ([], Server.RouteOutcome.droppedNoSession) ∧
    Server.broadcastToClients st1 cmd0 = [(5, Command.stringify cmd0)] :=
  ⟨rfl, rfl⟩

/-- Claim C4 amended: when no session context is active the path never
crashes (it is total) and never drops a command without logging; in STDIO
mode it falls back to broadcasting to all registered connections, dropping
the command with a log only when no client is connected; in HTTP mode it
logs a warning and drops the command without broadcasting and without any
default session id. -/
theorem routeToCurrentSession_noSession_amended (st : Server.ServerState) (cmd : Command) :
    (Server.routeToCurrentSession st true none cmd =
      if 0 < st.wsClients.length then
        (Server.broadcastToClients st cmd, Server.RouteOutcome.broadcastAll)
      else ([], Server.RouteOutcome.droppedNoClients)) ∧
    (Server.routeToCurrentSession st false none cmd =
      ([], Server.RouteOutcome.droppedNoSession)) :=
  ⟨rfl, rfl⟩

/-- Claim C8: the inbound-message handler never throws past its boundary
and never closes the connection — on a JSON.parse failure it logs and drops
the message, leaving the registry and the per-connection session variable
untouched; on a parsed message that is not a well-formed registration it
also leaves all state untouched, logging it when the sender is registered
and replying with an error message only when the sender is unregistered. -/
theorem malformed_message_handling (st : Server.ServerState) (conn : Conn)
    (connSession : Option String) (d : Server.MsgData) :
    (Server.handleMessage st conn connSession Server.Inbound.unparseable =
      ⟨st, connSession, [], Server.HandlerEffect.parseErrorLogged⟩) ∧
    ((d.type == some "registerSession" && isTruthy d.sessionId) = false →
      isTruthy connSession = true →
      Server.handleMessage st conn connSession (Server.Inbound.parsed d) =
        ⟨st, connSession, [], Server.HandlerEffect.loggedCommand⟩) ∧
    ((d.type == some "registerSession" && isTruthy d.sessionId) = false →
      isTruthy connSession = false →
      Server.handleMessage st conn connSession (Server.Inbound.parsed d) =
        ⟨st, connSession, [(conn.id, Server.notRegisteredMsg)], Server.HandlerEffect.errorReply⟩) := by
  refine ⟨rfl, fun h1 h2 => ?_, fun h1 h2 => ?_⟩ <;>
    simp [Server.handleMessage, h1, h2]

/-- Witness for claim C8: a parsed message lacking the registration fields,
sent by an unregistered client, is answered with the error reply and leaves
the state unchanged. -/
theorem malformed_message_handling_witness :
    Server.handleMessage st1 wsOpen none (Server.Inbound.parsed ⟨some "changeColor", none⟩) =
      ⟨st1, none, [(5, Server.notRegisteredMsg)], Server.HandlerEffect.errorReply⟩ :=
  (malformed_message_handling st1 wsOpen none ⟨some "changeColor", none⟩).2.2 rfl rfl

/-- Claim C10: in the legacy broadcast server, every successfully parsed
message from a connected client is re-broadcast to every connected client
whose socket is open, the sender included. -/
theorem legacy_broadcast_includes_sender (clients : List Conn) (sender : Conn)
    (cmd : Command) (hmem : sender ∈ clients) (hopen : sender.readyState = 1) :
    (sender.id, Command.stringify cmd) ∈
      (Legacy.handleClientMessage clients (Legacy.Inbound.parsed cmd)).1 ∧
    ∀ c ∈ clients, c.readyState = 1 →
      (c.id, Command.stringify cmd) ∈
        (Legacy.handleClientMessage clients (Legacy.Inbound.parsed cmd)).1 := by
  constructor
  · exact List.mem_map_of_mem _ (List.mem_filter.mpr ⟨hmem, by simp [hopen]⟩)
  · intro c hc hcop
    exact List.mem_map_of_mem _ (List.mem_filter.mpr ⟨hc, by simp [hcop]⟩)

/-- Witness for claim C10 with one connected open client that is the sender. -/
theorem legacy_broadcast_includes_sender_witness :
    (wsOpen.id, Command.stringify cmd0) ∈
      (Legacy.handleClientMessage [wsOpen] (Legacy.Inbound.parsed cmd0)).1 ∧
    ∀ c ∈ [wsOpen], c.readyState = 1 →
      (c.id, Command.stringify cmd0) ∈
        (Legacy.handleClientMessage [wsOpen] (Legacy.Inbound.parsed cmd0)).1 :=
  legacy_broadcast_includes_sender [wsOpen] wsOpen cmd0 (List.mem_singleton.mpr rfl) rfl

/-- A concrete orchestrator state with a cached payload for session s1. -/
def orch1 : SpecModel.OrchState String := ⟨[( "s1", ⟨ "red", 42⟩)], []⟩

/-- A concrete orchestrator state with a cached payload and one pending
query for session s1. -/
def orch2 : SpecModel.OrchState String := ⟨[( "s1", ⟨ "red", 42⟩)], [⟨ "r1", "s1"⟩]⟩

/-- Claim C1: while a cache entry exists for the session, getState with
forceRefresh false returns exactly the cached payload, changes nothing and
performs no live round trip; the cached payload is exactly the payload of
the last recorded stateUpdate or of the last successful stateResponse, with
no transformation; and with no cache entry, getState with forceRefresh false
behaves exactly as with forceRefresh true. -/
theorem getState_cache_hit_spec {α : Type} (st : SpecModel.OrchState α) (S : String)
    (hasConn : Bool) (live : SpecModel.LiveOutcome α) (now : Nat) :
    (∀ entry, regGet st.sessionStateCache S = some entry →
      SpecModel.getState st S false hasConn live now =
        ((Except.ok entry.state, st), false)) ∧
    (regGet st.sessionStateCache S = none →
      SpecModel.getState st S false hasConn live now =
        SpecModel.getState st S true hasConn live now) ∧
    (∀ state ts, SpecModel.getState (SpecModel.recordStateUpdate st S state ts) S false hasConn live now =
      ((Except.ok state, SpecModel.recordStateUpdate st S state ts), false)) ∧
    (∀ v, SpecModel.getState
        (SpecModel.queryStateFromBrowser st S true (SpecModel.LiveOutcome.response v) now).2
        S false hasConn live now =
      ((Except.ok v,
        (SpecModel.queryStateFromBrowser st S true (SpecModel.LiveOutcome.response v) now).2),
        false)) := by
  refine ⟨fun entry h => ?_, fun h => ?_, fun state ts => ?_, fun v => ?_⟩
  · simp [SpecModel.getState, h]
  · cases hasConn <;> cases live <;>
      simp [SpecModel.getState, SpecModel.queryStateFromBrowser, h]
  · simp [SpecModel.getState, SpecModel.recordStateUpdate, regGet_set_self]
  · simp [SpecModel.getState, SpecModel.queryStateFromBrowser, regGet_set_self]

/-- Witness for claim C1: a cache hit at a concrete state returns the
cached payload with no live round trip. -/
theorem getState_cache_hit_spec_witness :
    SpecModel.getState orch1 "s1" false true SpecModel.LiveOutcome.timeout 100 =
      ((Except.ok "red", orch1), false) :=
  (getState_cache_hit_spec orch1 "s1" true SpecModel.LiveOutcome.timeout 100).1 ⟨ "red", 42⟩ rfl

/-- Claim C2: getState with forceRefresh true always attempts a live round
trip; a successful live query returns the browser's payload and overwrites
the session's cache entry with it; when the live query fails and a cache
entry exists the call resolves to the stale cached payload; it fails exactly
when the live query failed and no cache entry exists. -/
theorem getState_forceRefresh_spec {α : Type} (st : SpecModel.OrchState α) (S : String)
    (hasConn : Bool) (live : SpecModel.LiveOutcome α) (now : Nat) :
    ((SpecModel.getState st S true hasConn live now).2 = true) ∧
    (∀ v, hasConn = true → live = SpecModel.LiveOutcome.response v →
      SpecModel.getState st S true hasConn live now =
        ((Except.ok v, SpecModel.recordStateUpdate st S v now), true) ∧
      regGet (SpecModel.recordStateUpdate st S v now).sessionStateCache S = some ⟨v, now⟩) ∧
    (∀ e, (SpecModel.queryStateFromBrowser st S hasConn live now).1 = Except.error e →
      (∀ entry, regGet st.sessionStateCache S = some entry →
        (SpecModel.getState st S true hasConn live now).1.1 = Except.ok entry.state) ∧
      (regGet st.sessionStateCache S = none →
        (SpecModel.getState st S true hasConn live now).1.1 = Except.error e)) ∧
    (∀ e, (SpecModel.getState st S true hasConn live now).1.1 = Except.error e →
      (SpecModel.queryStateFromBrowser st S hasConn live now).1 = Except.error e ∧
      regGet st.sessionStateCache S = none) := by
  refine ⟨?_, fun v hc hl => ?_, fun e he => ?_, fun e he => ?_⟩
  · cases hasConn <;> cases live <;>
      rcases h : regGet st.sessionStateCache S with _ | entry <;>
        simp [SpecModel.getState, SpecModel.queryStateFromBrowser, h]
  · subst hc; subst hl
    exact ⟨by simp [SpecModel.getState, SpecModel.queryStateFromBrowser,
        SpecModel.recordStateUpdate], regGet_set_self _ _ _⟩
  · constructor
    · intro entry hcache
      cases hasConn <;> cases live <;>
        simp_all [SpecModel.getState, SpecModel.queryStateFromBrowser]
    · intro hcache
      cases hasConn <;> cases live <;>
        simp_all [SpecModel.getState, SpecModel.queryStateFromBrowser]
  · cases hasConn <;> cases live <;>
      rcases h : regGet st.sessionStateCache S with _ | entry <;>
        simp_all [SpecModel.getState, SpecModel.queryStateFromBrowser]

/-- Witness for claim C2: a forced query that times out at a concrete state
with a cache entry resolves to the stale cached payload. -/
theorem getState_forceRefresh_spec_witness :
    (SpecModel.getState orch1 "s1" true true SpecModel.LiveOutcome.timeout 100).1.1 =
      Except.ok "red" :=
  ((getState_forceRefresh_spec orch1 "s1" true SpecModel.LiveOutcome.timeout 100).2.2.1
    SpecModel.QueryFailure.timeout rfl).1 ⟨ "red", 42⟩ rfl

/-- Claim C3: when the connection registered to session S closes, every
pending query owned by S is rejected with a disconnected error in that same
step (the handler in fact rejects and removes every entry of the table, so
none is left for its timeout timer), and the cache entry of S is deleted. -/
theorem onDisconnect_spec {α : Type} (st : SpecModel.OrchState α) (S : String) (hS : S ≠ "") :
    (∀ p ∈ st.pendingStateQueries, p.sessionId = S →
      (p, SpecModel.QueryFailure.disconnected) ∈ (SpecModel.onDisconnect st (some S)).2) ∧
    (SpecModel.onDisconnect st (some S)).1.pendingStateQueries = [] ∧
    regGet (SpecModel.onDisconnect st (some S)).1.sessionStateCache S = none := by
  have htr : isTruthy (some S) = true := by simp [isTruthy, hS]
  refine ⟨fun p hp _ => ?_, ?_, ?_⟩
  · simp only [SpecModel.onDisconnect, htr, if_pos]
    exact List.mem_map_of_mem _ hp
  · simp [SpecModel.onDisconnect, htr]
  · simp [SpecModel.onDisconnect, htr, regGet_delete_self]

/-- Witness for claim C3 at a concrete state with one pending query and a
cache entry for the disconnecting session. -/
theorem onDisconnect_spec_witness :
    (⟨ "r1", "s1"⟩, SpecModel.QueryFailure.disconnected) ∈
      (SpecModel.onDisconnect orch2 (some "s1")).2 ∧
    (SpecModel.onDisconnect orch2 (some "s1")).1.pendingStateQueries = [] ∧
    regGet (SpecModel.onDisconnect orch2 (some "s1")).1.sessionStateCache "s1" = none :=
  ⟨(onDisconnect_spec orch2 "s1" (by decide)).1 ⟨ "r1", "s1"⟩ (by decide) rfl,
   (onDisconnect_spec orch2 "s1" (by decide)).2.1,
   (onDisconnect_spec orch2 "s1" (by decide)).2.2⟩
